import Mathlib

/-!
A shallow embedding of the `Route` component of the routerify routing engine
(`src/route/mod.rs`) together with the collaborating data types it uses.

Only `src/route/mod.rs` is available as source.  The collaborators it relies
on — the `regex_generator` module, the `Router` type, and the
`PathParams` / `RequestData` store — live outside the provided sources, so
they are modelled from the specification (each such definition carries a
doc comment starting with "Modelled from the spec:").  Everything in the
`Route` impl itself is translated directly from the Rust source.

Rust `async` is erased: handlers and `process` are modelled as pure
functions returning an `Outcome`, which distinguishes a returned `Ok`
response, a returned `Err`, and a panic (Rust `todo!` aborts the task; the
distinction matters for the websocket dispatch path).
-/

namespace Routerify

/-- HTTP method, standing in for `hyper::Method` (external crate).  Only the
constructors matter for the routing logic: methods are compared for equality
and looked up in the allowed-method list. -/
inductive Method where
  | GET
  | POST
  | PUT
  | DELETE
  | HEAD
  | OPTIONS
  | PATCH
deriving DecidableEq, BEq, Repr

/-- HTTP response, standing in for `hyper::Response<Body>` (external crate).
Opaque to the routing core; a single string field is enough to observe what a
handler produced. -/
structure Response where
  body : String
deriving DecidableEq, Repr

/-- Result of one dispatch, replacing Rust's `crate::Result<T>` plus the
possibility of a panic.  `ok`/`err` model `Result::Ok`/`Result::Err`
(anyhow-style string errors); `panic` models an aborted task, which is how
Rust's `todo!` macro terminates. -/
inductive Outcome (α : Type) where
  | ok (value : α)
  | err (msg : String)
  | panic (msg : String)
deriving DecidableEq, Repr

/-- Discriminator: did this dispatch return `Ok`? -/
def Outcome.isOk {α : Type} : Outcome α → Bool
  | Outcome.ok _ => true
  | Outcome.err _ => false
  | Outcome.panic _ => false

/-- Discriminator: did this dispatch return a typed `Err`? -/
def Outcome.isErr {α : Type} : Outcome α → Bool
  | Outcome.ok _ => false
  | Outcome.err _ => true
  | Outcome.panic _ => false

/-- Discriminator: did this dispatch panic? -/
def Outcome.isPanic {α : Type} : Outcome α → Bool
  | Outcome.ok _ => false
  | Outcome.err _ => false
  | Outcome.panic _ => true

/-- Stand-in for `hyper::upgrade::Upgraded` (external crate); never inspected
by the routing core, it is only passed to a websocket handler (which is never
actually invoked). -/
def Upgraded := Unit

/-- Modelled from the spec: `PathParams` lives at the crate root, outside the
provided sources.  Spec §3: "Ordered mapping, parameter name → extracted
value (both strings)"; spec §3 (CompiledPattern): "duplicate names would
overwrite in the parameter store". -/
structure PathParams where
  entries : List (String × String)
deriving DecidableEq, Repr

/-- Modelled from the spec: capacity is a memory-layout hint with no
observable effect on the mapping, so the constructor ignores it. -/
def PathParams.with_capacity (_n : Nat) : PathParams :=
  { entries := [] }

/-- Modelled from the spec: binding a name overwrites an existing entry for
the same name (spec §3: "duplicate names would overwrite") and otherwise
appends, preserving order (spec §3: "Ordered mapping"). -/
def PathParams.set (p : PathParams) (name : String) (value : String) : PathParams :=
  if p.entries.any (fun e => e.1 == name) then
    { entries := p.entries.map (fun e => if e.1 == name then (name, value) else e) }
  else
    { entries := p.entries ++ [(name, value)] }

/-- Modelled from the spec: `RequestData` lives at the crate root, outside
the provided sources.  It is the request-scoped wrapper around the parameter
store (spec §3). -/
structure RequestData where
  params : PathParams
deriving DecidableEq, Repr

/-- Modelled from the spec: constructor wrapping a parameter store. -/
def RequestData.new (params : PathParams) : RequestData :=
  { params := params }

/-- Modelled from the spec: merging a later layer's data into an earlier
one — "new entries are appended/merged into the existing one" (spec §3). -/
def RequestData.extend (d : RequestData) (other : RequestData) : RequestData :=
  { params := other.params.entries.foldl (fun pp e => pp.set e.1 e.2) d.params }

/-- Stand-in for `hyper::Request<Body>` (external crate).  The routing core
only touches the request's extensions map, and only ever its `RequestData`
slot (`ext` here), plus — in the modelled route table — the HTTP method. -/
structure Request where
  method : Method
  ext : Option RequestData
deriving DecidableEq, Repr

/-! ## The compiled pattern

`src/route/mod.rs` declares `mod regex_generator;` but that file is not in
the provided sources, and the `regex` crate is external.  The compiled
pattern and its matching semantics are therefore modelled from the spec
(§4.1, §6): a template is split on `/`; each segment is either a literal
(matched verbatim) or a parameter `\x7bname\x7d`, which compiles to a
capturing group matching one-or-more non-`/` characters; exact-match
patterns are anchored at both ends, prefix-match patterns only at the
start.  Since every generated group is a full `/`-delimited segment, greedy
regex matching coincides with the deterministic maximal-munch matcher
`runSegs` below, so the model is executable without backtracking. -/

/-- One segment of a compiled template: a verbatim literal or a named
capturing group matching one-or-more non-separator characters. -/
inductive Seg where
  | lit (chars : List Char)
  | param (name : String)
deriving DecidableEq, Repr

/-- Modelled from the spec: the compiled pattern — an ordered segment list
plus the anchoring mode (spec §4.1: exact-match anchored both ends,
prefix-match anchored only at the start). -/
structure Regex where
  segs : List Seg
  exact : Bool
deriving DecidableEq, Repr

/-- Split a character list on `/`, keeping empty pieces (like Rust's
`str::split`): `"/a/"` yields `["", "a", ""]`. -/
def splitOnSlash : List Char → List (List Char)
  | [] => [[]]
  | c :: cs =>
    if c = '/' then
      [] :: splitOnSlash cs
    else
      match splitOnSlash cs with
      | [] => [[c]]
      | piece :: rest => (c :: piece) :: rest

/-- Modelled from the spec: classify one template segment.  A segment of the
form `\x7bname\x7d` (nonempty brace-free name) is a parameter; a segment
containing stray braces is malformed parameter syntax and fails compilation
(spec §4.1: "compilation fails ... e.g., malformed parameter syntax");
anything else is a literal. -/
def classifySeg (seg : List Char) : Except String Seg :=
  if seg.head? = some '{' then
    let inner := seg.drop 1
    if inner.getLast? = some '}' then
      let name := inner.dropLast
      if name.isEmpty || name.any (fun c => c = '{' || c = '}') then
        Except.error "malformed parameter syntax"
      else
        Except.ok (Seg.param (String.mk name))
    else
      Except.error "malformed parameter syntax"
  else if seg.any (fun c => c = '{' || c = '}') then
    Except.error "malformed parameter syntax"
  else
    Except.ok (Seg.lit seg)

/-- Classify every segment, propagating the first compilation failure. -/
def classifySegs : List (List Char) → Except String (List Seg)
  | [] => Except.ok []
  | s :: rest => do
    let seg ← classifySeg s
    let segs ← classifySegs rest
    Except.ok (seg :: segs)

/-- Parameter names in strict left-to-right order of their capturing groups
(spec §4.1). -/
def segParamNames (segs : List Seg) : List String :=
  segs.filterMap fun s =>
    match s with
    | Seg.param n => some n
    | Seg.lit _ => none

/-- Modelled from the spec: `regex_generator::generate_exact_match_regex` —
compile a template in exact-match mode (anchored both ends), returning the
matcher and the ordered parameter names. -/
def generate_exact_match_regex (path : String) : Except String (Regex × List String) :=
  (classifySegs (splitOnSlash path.data)).map
    (fun segs => ({ segs := segs, exact := true }, segParamNames segs))

/-- Modelled from the spec: `regex_generator::generate_prefix_match_regex` —
same classification, anchored only at the start (spec §4.1). -/
def generate_prefix_match_regex (path : String) : Except String (Regex × List String) :=
  (classifySegs (splitOnSlash path.data)).map
    (fun segs => ({ segs := segs, exact := false }, segParamNames segs))

/-- Consume a literal: the literal must be a verbatim prefix of the input;
returns the rest of the input. -/
def matchLit : List Char → List Char → Option (List Char)
  | [], cs => some cs
  | _ :: _, [] => none
  | l :: ls, c :: cs => if l = c then matchLit ls cs else none

/-- Consume one segment: a literal is matched verbatim; a parameter group
takes the maximal nonempty run of non-`/` characters, yielding a captured
value. -/
def matchSeg : Seg → List Char → Option (Option String × List Char)
  | Seg.lit l, cs => (matchLit l cs).map (fun rest => (none, rest))
  | Seg.param _, cs =>
    let v := cs.takeWhile (fun c => c ≠ '/')
    if v.isEmpty then none
    else some (some (String.mk v), cs.drop v.length)

/-- Run the whole segment list (separated by `/`) against the input from the
start; on success return the captured group values in order and the
unconsumed remainder of the input. -/
def runSegs : List Seg → List Char → Option (List String × List Char)
  | [], cs => some ([], cs)
  | seg :: rest, cs =>
    match matchSeg seg cs with
    | none => none
    | some (cap?, cs') =>
      match rest with
      | [] => some (cap?.toList, cs')
      | _ :: _ =>
        match matchLit ['/'] cs' with
        | none => none
        | some cs'' =>
          match runSegs rest cs'' with
          | none => none
          | some (caps, rest') => some (cap?.toList ++ caps, rest')

/-- Modelled from the spec: the anchored match of a compiled pattern against
a target path.  Exact mode requires the whole input to be consumed; prefix
mode returns the unconsumed remainder.  All generated patterns are anchored
at the start, so the leftmost regex match is exactly the one found here. -/
def Regex.findMatch (re : Regex) (s : String) : Option (List String × String) :=
  match runSegs re.segs s.data with
  | none => none
  | some (caps, rest) =>
    if re.exact && !rest.isEmpty then none else some (caps, String.mk rest)

/-- `Regex::is_match` of the regex crate, on the modelled patterns. -/
def Regex.is_match (re : Regex) (s : String) : Bool :=
  (re.findMatch s).isSome

/-- `Regex::captures` of the regex crate, on the modelled patterns: the list
of capture-group values in group order.  Index `i` of the returned list is
capture group `i + 1` in the 1-based regex numbering (group 0, the whole
match, is not included); an index past the end of the list models a group
that did not participate in the match. -/
def Regex.captures (re : Regex) (s : String) : Option (List String) :=
  (re.findMatch s).map (fun m => m.1)

/-- `Regex::replace` of the regex crate, on the modelled patterns: replace
the leftmost match with `replacement`, or return the input unchanged when
there is no match.  The modelled patterns are all start-anchored, so the
matched text is a prefix and the result is `replacement ++ remainder`. -/
def Regex.replace (re : Regex) (s : String) (replacement : String) : String :=
  match re.findMatch s with
  | none => s
  | some (_, rest) => replacement ++ rest

/-! ## The Route entity (translated from `src/route/mod.rs`) -/

/-- Handler stored by a terminal route: `BoxedNormalRouteHandler`,
`Fn(Request<Body>) -> Future<Output = crate::Result<Response<Body>>>`,
with the asynchrony erased and panics made explicit in the codomain. -/
def NormalRouteHandler := Request → Outcome Response

/-- Handler stored by a websocket route: `BoxedWsRouteHandler`,
`Fn(Upgraded, RequestData) -> Future<Output = crate::Result<()>>`. -/
def WsRouteHandler := Upgraded → RequestData → Outcome Unit

/-- Modelled from the spec: the `Router` type lives in `src/router`, outside
the provided sources.  Spec §6: "a router exposes a single entry point
`process(path, request) -> asynchronous Result<Response>`"; the nested
router held by a delegating route is modelled by that entry point alone. -/
def RouterFn := String → Request → Outcome Response

/-- The `Inner` enum of `src/route/mod.rs`: exactly one of the three
behaviors. -/
inductive Inner where
  | Normal (methods : List Method) (handler : NormalRouteHandler)
  | Router (router : RouterFn)
  | WS (handler : WsRouteHandler)

/-- The `Route` struct of `src/route/mod.rs`. -/
structure Route where
  path : String
  regex : Regex
  path_params : List String
  inner : Inner

/-- `Route::gen_exact_match_regex`: compile in exact mode, adding the
anyhow context string on failure. -/
def Route.gen_exact_match_regex (path : String) : Except String (Regex × List String) :=
  (generate_exact_match_regex path).mapError
    (fun e => "Could not create an exact match regex for the route path: " ++ e)

/-- `Route::gen_prefix_match_regex`: compile in prefix mode, adding the
anyhow context string on failure. -/
def Route.gen_prefix_match_regex (path : String) : Except String (Regex × List String) :=
  (generate_prefix_match_regex path).mapError
    (fun e => "Could not create a prefix match regex for the route path: " ++ e)

/-- `Route::with_normal`: compile the template with the exact-match policy
(the `?` operator propagates compilation failure) and wrap the handler. -/
def Route.with_normal (path : String) (methods : List Method) (handler : NormalRouteHandler) :
    Except String Route :=
  match Route.gen_exact_match_regex path with
  | Except.error e => Except.error e
  | Except.ok (re, params) =>
    Except.ok { path := path, regex := re, path_params := params,
                inner := Inner.Normal methods handler }

/-- `Route::with_router`: compile the template with the prefix-match policy
and store the nested router reference. -/
def Route.with_router (path : String) (router : RouterFn) : Except String Route :=
  match Route.gen_prefix_match_regex path with
  | Except.error e => Except.error e
  | Except.ok (re, params) =>
    Except.ok { path := path, regex := re, path_params := params,
                inner := Inner.Router router }

/-- `Route::with_ws`: compile the template with the exact-match policy and
wrap the websocket handler. -/
def Route.with_ws (path : String) (handler : WsRouteHandler) : Except String Route :=
  match Route.gen_exact_match_regex path with
  | Except.error e => Except.error e
  | Except.ok (re, params) =>
    Except.ok { path := path, regex := re, path_params := params,
                inner := Inner.WS handler }

/-- `Route::is_match`, translated clause by clause from the source. -/
def Route.is_match (r : Route) (target_path : String) (method : Method) : Bool :=
  match r.inner with
  | Inner.Normal methods _ =>
    if methods.length > 0 then
      r.regex.is_match target_path && methods.contains method
    else
      r.regex.is_match target_path
  | Inner.Router _ => r.regex.is_match target_path
  | Inner.WS _ => r.regex.is_match target_path

/-- `Route::generate_req_data`: re-run the compiled pattern's capture
operation and bind `path_params[idx]` to capture group `idx + 1` (index
`idx` of the modelled capture list) whenever that group is present; absent
groups are skipped.  The `for idx in 0..ln` loop becomes a fold over
`List.range ln`; the indexing `path_params_list[idx]` is total because
`idx < ln = path_params_list.length`. -/
def Route.generate_req_data (r : Route) (target_path : String) : RequestData :=
  let path_params_list := r.path_params
  let ln := path_params_list.length
  let path_params :=
    if ln > 0 then
      match r.regex.captures target_path with
      | some caps =>
        (List.range ln).foldl
          (fun pp idx =>
            match caps[idx]? with
            | some g => pp.set path_params_list[idx]! g
            | none => pp)
          (PathParams.with_capacity ln)
      | none => PathParams.with_capacity ln
    else PathParams.with_capacity ln
  RequestData.new path_params

/-- `Route::update_req_data`: if the request already carries a
`RequestData` extension, extend it in place; otherwise insert the new one.
The Rust `&mut Request` is modelled by returning the updated request. -/
def Route.update_req_data (_r : Route) (req : Request) (req_data : RequestData) : Request :=
  match req.ext with
  | some existing_req_data => { req with ext := some (existing_req_data.extend req_data) }
  | none => { req with ext := some req_data }

/-- `Route::push_req_data`: generate the data for the target path and merge
it into the request. -/
def Route.push_req_data (r : Route) (target_path : String) (req : Request) : Request :=
  r.update_req_data req (r.generate_req_data target_path)

/-- `Route::process_normal_route`: merge the extracted parameters into the
request, then invoke the stored handler with it; the handler's awaited
result is returned as-is. -/
def Route.process_normal_route (r : Route) (target_path : String) (req : Request)
    (handler : NormalRouteHandler) : Outcome Response :=
  let req := r.push_req_data target_path req
  handler req

/-- `Route::process_router_route`: merge the extracted parameters into the
request, compute the remainder by replacing the matched prefix with the
empty string, and invoke the nested router's entry point with both. -/
def Route.process_router_route (r : Route) (target_path : String) (req : Request)
    (router : RouterFn) : Outcome Response :=
  let req := r.push_req_data target_path req
  let target_path := r.regex.replace target_path ""
  router target_path req

/-- The panic message produced by `todo!("Websocket support is not yet
added")` in `Route::process_ws_route`. -/
def wsTodoMsg : String := "not yet implemented: Websocket support is not yet added"

/-- `Route::process_ws_route`: the request and the stored handler are
ignored (`_req`, `_handler` in the source); the parameter data is generated
and immediately discarded, and the function panics via `todo!`. -/
def Route.process_ws_route (r : Route) (target_path : String) (_req : Request)
    (_handler : WsRouteHandler) : Outcome Response :=
  let _req_data := r.generate_req_data target_path
  Outcome.panic wsTodoMsg

/-- `Route::process`: dispatch on the route's behavior. -/
def Route.process (r : Route) (target_path : String) (req : Request) : Outcome Response :=
  match r.inner with
  | Inner.Normal _ handler => r.process_normal_route target_path req handler
  | Inner.Router router => r.process_router_route target_path req router
  | Inner.WS handler => r.process_ws_route target_path req handler

/-! ## Spec-side description of parameter extraction (for the refinement
claim about `generate_req_data`) and a small demonstration harness. -/

/-- Follows the spec's words (§4.5), not the source: walk the parameter
names and the capture-group values positionally, binding each name whose
group is present and skipping the rest (capture lists shorter than the name
list model groups that did not participate in the match). -/
def specParamExtractionAux : PathParams → List String → List String → PathParams
  | pp, [], _ => pp
  | pp, _ :: _, [] => pp
  | pp, name :: names, cap :: caps => specParamExtractionAux (pp.set name cap) names caps

/-- Follows the spec's words (§4.5): parameter extraction starting from an
empty store. -/
def specParamExtraction (names : List String) (caps : List String) : PathParams :=
  specParamExtractionAux { entries := [] } names caps

/-- Fallback route for extracting constructor results; never actually
reached, since every template below compiles. -/
def dummyRoute : Route :=
  { path := "", regex := { segs := [], exact := true }, path_params := [],
    inner := Inner.Normal [] (fun _ => Outcome.err "dummy") }

/-- Extract the route from a successful construction. -/
def routeOr (e : Except String Route) (d : Route) : Route :=
  match e with
  | Except.ok r => r
  | Except.error _ => d

/-- Modelled from the spec: a minimal owning route table (§2, §6) holding a
single route — `is_match` is consulted with the request's method and the
first (only) match is given the request via `process`. -/
def singleRouter (r : Route) : RouterFn :=
  fun path req =>
    if r.is_match path req.method then r.process path req else Outcome.err "not found"

/-- Render a parameter-store entry list, e.g. `"org=acme,user=bob"`. -/
def encodeEntries : List (String × String) → String
  | [] => ""
  | [(k, v)] => k ++ "=" ++ v
  | (k, v) :: rest => k ++ "=" ++ v ++ "," ++ encodeEntries rest

/-- Render the request's parameter-store slot. -/
def encodeExt : Option RequestData → String
  | none => "no-store"
  | some d => encodeEntries d.params.entries

/-- Demonstration handler that reports the parameter store it received. -/
def observeHandler : NormalRouteHandler :=
  fun req => Outcome.ok { body := encodeExt req.ext }

/-- Demonstration handler that always fails. -/
def boomHandler : NormalRouteHandler :=
  fun _ => Outcome.err "boom"

/-- Demonstration websocket handler (never invoked by dispatch). -/
def wsHandler0 : WsRouteHandler :=
  fun _ _ => Outcome.ok ()

/-- Demonstration nested router that reports what it was invoked with. -/
def demoRouterFn : RouterFn :=
  fun path req => Outcome.ok { body := path ++ "|" ++ encodeExt req.ext }

/-- A fresh GET request carrying no parameter store. -/
def req0 : Request := { method := Method.GET, ext := none }

/-- A request already carrying a parameter store. -/
def reqWithData : Request :=
  { method := Method.GET, ext := some (RequestData.new { entries := [("k", "v")] }) }

/-- Terminal route `/user/{user}`, any method, observing handler. -/
def userRoute : Route :=
  routeOr (Route.with_normal "/user/{user}" [] observeHandler) dummyRoute

/-- Delegating route `/org/{org}` forwarding into the single-route
table around `userRoute`. -/
def orgRoute : Route :=
  routeOr (Route.with_router "/org/{org}" (singleRouter userRoute)) dummyRoute

/-- Delegating route `/api/` forwarding into `demoRouterFn`. -/
def apiRoute : Route :=
  routeOr (Route.with_router "/api/" demoRouterFn) dummyRoute

/-- Terminal route `/users/{id}` allowing only GET and POST. -/
def gpRoute : Route :=
  routeOr (Route.with_normal "/users/{id}" [Method.GET, Method.POST] observeHandler) dummyRoute

/-- Terminal route `/boom` whose handler always fails. -/
def boomRoute : Route :=
  routeOr (Route.with_normal "/boom" [] boomHandler) dummyRoute

/-- Websocket route `/ws`. -/
def wsRoute : Route :=
  routeOr (Route.with_ws "/ws" wsHandler0) dummyRoute

theorem foldl_skip (l : List Nat) (pp : PathParams) :
    l.foldl (fun pp _ => pp) pp = pp := by
  induction l generalizing pp with
  | nil => rfl
  | cons a l ih => simp only [List.foldl_cons]; exact ih pp

/-- The indexed fold of `Route.generate_req_data` computes exactly the
positional walk of `specParamExtractionAux`. -/
theorem foldl_range_extract (names caps : List String) (pp : PathParams) :
    (List.range names.length).foldl
      (fun pp idx =>
        match caps[idx]? with
        | some g => pp.set names[idx]! g
        | none => pp) pp
    = specParamExtractionAux pp names caps := by
  induction names generalizing caps pp with
  | nil => simp [specParamExtractionAux]
  | cons n ns ih =>
    cases caps with
    | nil =>
      simp only [List.getElem?_nil, specParamExtractionAux]
      exact foldl_skip _ pp
    | cons c cs =>
      rw [List.length_cons, List.range_succ_eq_map, List.foldl_cons, List.foldl_map]
      simp only [Nat.succ_eq_add_one, List.getElem?_cons_zero, List.getElem?_cons_succ,
        List.getElem!_cons_zero, List.getElem!_cons_succ, specParamExtractionAux]
      exact ih cs (pp.set n c)

/-! ## The claims -/

/-- Claim C1 (code bug in the source): the claim says that for every
upgrade (WS) route, `process` invokes the upgrade path and returns an
explicit typed "not supported" failure, and does not panic.  The source's
`Route::process_ws_route` instead executes
`todo!("Websocket support is not yet added")`, which panics.  This theorem
evaluates the embedded dispatch at the failing input (`/ws` websocket
route, target `/ws`): the result is the todo-panic, not an `Outcome.err`. -/
theorem c1_ws_process_panics_instead_of_err :
    wsRoute.process "/ws" req0 = Outcome.panic wsTodoMsg ∧
    (wsRoute.process "/ws" req0).isPanic = true ∧
    (wsRoute.process "/ws" req0).isErr = false ∧
    (wsRoute.process "/ws" req0).isOk = false :=
  ⟨rfl, rfl, rfl, rfl⟩

/-- Claim C2: for every delegating (Router) route, `process` first merges
the route's extracted parameters into the request (`push_req_data`), then
computes the remainder path by removing the matched prefix
(`Regex.replace` with the empty replacement), and invokes the nested
router's entry point with that remainder and the mutated request,
propagating its result verbatim; in particular, for template `/api/` and
target path `/api/users/42` the remainder is `users/42`. -/
theorem c2_router_route_delegates_remainder (r : Route) (router : RouterFn)
    (t : String) (req : Request) (h : r.inner = Inner.Router router) :
    r.process t req = router (r.regex.replace t "") (r.push_req_data t req) ∧
    apiRoute.regex.replace "/api/users/42" "" = "users/42" := by
  refine ⟨?_, rfl⟩
  unfold Route.process Route.process_router_route
  rw [h]

theorem c2_witness :
    apiRoute.process "/api/users/42" req0 =
      demoRouterFn (apiRoute.regex.replace "/api/users/42" "")
        (apiRoute.push_req_data "/api/users/42" req0) ∧
    apiRoute.regex.replace "/api/users/42" "" = "users/42" :=
  c2_router_route_delegates_remainder apiRoute demoRouterFn "/api/users/42" req0 rfl

/-- Claim C3: for every terminal (Normal) route, `is_match` is true iff the
compiled pattern matches the target path and, when the allowed-method list
is non-empty, the method is a member of it; with an empty allowed-method
list the result is independent of the method argument. -/
theorem c3_normal_is_match_iff (r : Route) (t : String) (m m1 m2 : Method)
    (methods : List Method) (handler : NormalRouteHandler)
    (h : r.inner = Inner.Normal methods handler) :
    (r.is_match t m = true ↔
      (r.regex.is_match t = true ∧ (methods ≠ [] → methods.contains m = true))) ∧
    (methods = [] → r.is_match t m1 = r.is_match t m2) := by
  unfold Route.is_match
  rw [h]
  cases methods with
  | nil => simp
  | cons a l => simp [Bool.and_eq_true]

theorem c3_witness :
    (gpRoute.is_match "/users/42" Method.DELETE = true ↔
      (gpRoute.regex.is_match "/users/42" = true ∧
        ([Method.GET, Method.POST] ≠ [] →
          [Method.GET, Method.POST].contains Method.DELETE = true))) ∧
    ([Method.GET, Method.POST] = [] →
      gpRoute.is_match "/users/42" Method.GET = gpRoute.is_match "/users/42" Method.POST) :=
  c3_normal_is_match_iff gpRoute "/users/42" Method.DELETE Method.GET Method.POST
    [Method.GET, Method.POST] observeHandler rfl

/-- Claim C4: for every delegating (Router) or upgrade (WS) route,
`is_match` is exactly the compiled pattern's match on the target path; the
method argument is ignored entirely, so any two methods give the same
answer. -/
theorem c4_router_ws_is_match_ignores_method (r : Route) (t : String) (m m1 m2 : Method)
    (h : (∃ router, r.inner = Inner.Router router) ∨
         (∃ handler, r.inner = Inner.WS handler)) :
    r.is_match t m = r.regex.is_match t ∧ r.is_match t m1 = r.is_match t m2 := by
  unfold Route.is_match
  rcases h with ⟨router, h⟩ | ⟨handler, h⟩ <;> rw [h] <;> exact ⟨rfl, rfl⟩

theorem c4_witness :
    apiRoute.is_match "/api/x" Method.DELETE = apiRoute.regex.is_match "/api/x" ∧
    apiRoute.is_match "/api/x" Method.GET = apiRoute.is_match "/api/x" Method.POST :=
  c4_router_ws_is_match_ignores_method apiRoute "/api/x" Method.DELETE Method.GET Method.POST
    (Or.inl ⟨demoRouterFn, rfl⟩)

/-- Claim C5: dispatch merges extracted parameters into the request's
attached store rather than substituting it — `update_req_data` inserts a
new store when none is attached and extends the existing one otherwise —
and, concretely, a request matching the outer template `/org/{org}`
delegating into the inner template `/user/{user}` ends with both
`org` and `user` present simultaneously in the final store (observed here
through a handler that reports the store it received). -/
theorem c5_update_req_data_merges (r : Route) (req : Request) (d : RequestData) :
    (r.update_req_data req d).ext =
      some (match req.ext with
            | some existing => existing.extend d
            | none => d) ∧
    orgRoute.process "/org/acme/user/bob" req0 = Outcome.ok { body := "org=acme,user=bob" } := by
  refine ⟨?_, rfl⟩
  rcases req with ⟨m, ext⟩
  cases ext <;> rfl

/-- Claim C6: parameter extraction re-runs the compiled pattern's capture
operation and, positionally, binds `path_params[idx]` to the value of
capture group `idx + 1` whenever that group is present, skipping absent
groups; stated as a refinement of the spec-worded `specParamExtraction`. -/
theorem c6_generate_req_data_extracts (r : Route) (t : String) (caps : List String)
    (h : r.regex.captures t = some caps) :
    r.generate_req_data t = RequestData.new (specParamExtraction r.path_params caps) := by
  unfold Route.generate_req_data
  cases hn : r.path_params with
  | nil => simp [specParamExtraction, specParamExtractionAux, PathParams.with_capacity]
  | cons a l =>
    simp only [List.length_cons, Nat.succ_eq_add_one, gt_iff_lt, Nat.succ_pos, if_pos, h,
      PathParams.with_capacity]
    rw [show (l.length + 1 : Nat) = (a :: l).length from rfl, foldl_range_extract]
    rfl

theorem c6_witness :
    userRoute.regex.captures "/user/bob" = some ["bob"] ∧
    userRoute.generate_req_data "/user/bob" =
      RequestData.new (specParamExtraction userRoute.path_params ["bob"]) :=
  ⟨rfl, c6_generate_req_data_extracts userRoute "/user/bob" ["bob"] rfl⟩

/-- Claim C7: for every terminal (Normal) route, `process` merges the
extracted parameters into the request and returns the stored handler's
result on that annotated request verbatim — the outcome is literally the
handler's outcome, with no retry, substitution or wrapping. -/
theorem c7_normal_route_propagates_handler (r : Route) (t : String) (req : Request)
    (methods : List Method) (handler : NormalRouteHandler)
    (h : r.inner = Inner.Normal methods handler) :
    r.process t req = handler (r.push_req_data t req) := by
  unfold Route.process Route.process_normal_route
  rw [h]

theorem c7_witness :
    boomRoute.process "/boom" req0 = boomHandler (boomRoute.push_req_data "/boom" req0) ∧
    boomRoute.process "/boom" req0 = Outcome.err "boom" :=
  ⟨c7_normal_route_propagates_handler boomRoute "/boom" req0 [] boomHandler rfl, rfl⟩

/-- Claim C8: all three constructors compile the template at construction
time and are exactly the compilation result mapped into a fully built
`Route` — so a compilation failure is returned as a construction failure
and no (half-compiled) `Route` value is produced; concretely, the
malformed template `/users/{id` fails at registration. -/
theorem c8_constructors_propagate_compile_failure (path : String) (methods : List Method)
    (handler : NormalRouteHandler) (router : RouterFn) (ws : WsRouteHandler) :
    Route.with_normal path methods handler =
      (Route.gen_exact_match_regex path).map
        (fun p => { path := path, regex := p.1, path_params := p.2,
                    inner := Inner.Normal methods handler }) ∧
    Route.with_router path router =
      (Route.gen_prefix_match_regex path).map
        (fun p => { path := path, regex := p.1, path_params := p.2,
                    inner := Inner.Router router }) ∧
    Route.with_ws path ws =
      (Route.gen_exact_match_regex path).map
        (fun p => { path := path, regex := p.1, path_params := p.2,
                    inner := Inner.WS ws }) ∧
    (Route.with_normal "/users/\x7bid" methods handler).isOk = false := by
  refine ⟨?_, ?_, ?_, rfl⟩
  · cases h : Route.gen_exact_match_regex path with
    | error e => simp [Route.with_normal, h, Except.map]
    | ok p => cases p with
      | mk re ps => simp [Route.with_normal, h, Except.map]
  · cases h : Route.gen_prefix_match_regex path with
    | error e => simp [Route.with_router, h, Except.map]
    | ok p => cases p with
      | mk re ps => simp [Route.with_router, h, Except.map]
  · cases h : Route.gen_exact_match_regex path with
    | error e => simp [Route.with_ws, h, Except.map]
    | ok p => cases p with
      | mk re ps => simp [Route.with_ws, h, Except.map]

/-- Claim C9: extraction is total — with zero parameter names, or when the
compiled pattern does not match the target path at all, `generate_req_data`
still returns a `RequestData` with an empty parameter store (its type has
no failure case). -/
theorem c9_generate_req_data_total (r : Route) (t : String)
    (h : r.path_params = [] ∨ r.regex.captures t = none) :
    r.generate_req_data t = RequestData.new { entries := [] } := by
  unfold Route.generate_req_data
  rcases h with h | h
  · simp [h, PathParams.with_capacity]
  · by_cases hl : r.path_params.length > 0
    · simp [hl, h, PathParams.with_capacity]
    · simp [hl, PathParams.with_capacity]

theorem c9_witness :
    userRoute.regex.captures "/nope" = none ∧
    userRoute.generate_req_data "/nope" = RequestData.new { entries := [] } :=
  ⟨rfl, c9_generate_req_data_total userRoute "/nope" (Or.inr rfl)⟩

/-- Claim C10: dispatch through an upgrade (WS) route never modifies the
incoming request — the branch applies neither `push_req_data` nor
`update_req_data`, the generated parameter data is discarded, and the
request (its extension slot included) is never consulted, so the outcome
is the same todo-panic for any two requests. -/
theorem c10_ws_dispatch_leaves_request_unchanged (r : Route) (t : String)
    (req req2 : Request) (handler : WsRouteHandler) (h : r.inner = Inner.WS handler) :
    r.process t req = Outcome.panic wsTodoMsg ∧ r.process t req = r.process t req2 := by
  unfold Route.process Route.process_ws_route
  rw [h]
  exact ⟨rfl, rfl⟩

theorem c10_witness :
    wsRoute.process "/ws" reqWithData = Outcome.panic wsTodoMsg ∧
    wsRoute.process "/ws" reqWithData = wsRoute.process "/ws" req0 :=
  c10_ws_dispatch_leaves_request_unchanged wsRoute "/ws" reqWithData req0 wsHandler0 rfl

end Routerify

/-- Sanity checks: the modelled pattern semantics reproduces the spec's
concrete examples (spec §8). -/
example : Routerify.generate_exact_match_regex "/users/{id}" =
    Except.ok ({ segs := [Routerify.Seg.lit [], Routerify.Seg.lit ['u','s','e','r','s'],
                          Routerify.Seg.param "id"], exact := true }, ["id"]) := rfl
example :
    (Routerify.generate_exact_match_regex "/users/{id}").map
      (fun p => p.1.is_match "/users/42") = Except.ok true := rfl
example :
    (Routerify.generate_exact_match_regex "/users/{id}").map
      (fun p => p.1.is_match "/users/42/x") = Except.ok false := rfl
example :
    (Routerify.generate_prefix_match_regex "/api/").map
      (fun p => p.1.replace "/api/users/42" "") = Except.ok "users/42" := rfl
example :
    (Routerify.generate_prefix_match_regex "/org/{org}").map
      (fun p => (p.1.captures "/org/acme/user/bob", p.1.replace "/org/acme/user/bob" "")) =
    Except.ok (some ["acme"], "/user/bob") := rfl
example : (Routerify.generate_exact_match_regex "/users/\x7bid").isOk = false := by decide
